import Mathlib

/-!
# devworkspace-che-operator: manager resolution and finalization

A shallow embedding of `pkg/util/util.go`, `pkg/solver/solver.go`,
`pkg/manager/singlehost.go` and `pkg/manager/multihost.go`, and a model, after the
specification, of the parts of `pkg/manager/chemanager_controller.go` and
`pkg/solver/singlehost.go` that the stated properties are about.

Conventions of the embedding:

* a Go `map[K]V` is an association list `List (K × V)`; indexing a missing key of a
  `map[string]string` gives the empty string, as in Go;
* a Go `error` is `Option GoError`, `none` being `nil`;
* a `time.Duration` is a natural number of nanoseconds;
* the cluster behind `client.Client` is an explicit state of an arbitrary type `σ`
  that every method of the solver receives and returns;
* constants and methods that the sources use but that are declared in packages which
  are not among them (`defaults`, `config`, `v1alpha1`, the mode specific files of the
  solver) are parameters of the definitions that use them.
-/

namespace Che

/-! ## Data model -/

/-- Go `map[string]string` (labels, annotations). -/
abbrev StringMap := List (String × String)

/-- Go map indexing `m[k]` on a `map[string]string`: the zero value `""` when `k` is absent. -/
def StringMap.index (m : StringMap) (k : String) : String :=
  (m.lookup k).getD ""

/-- The type `client.ObjectKey` (alias of `types.NamespacedName`). -/
structure ObjectKey where
  Namespace : String
  Name : String
  deriving DecidableEq, Repr

/-- The part of `metav1.ObjectMeta` that the sources read. -/
structure ObjectMeta where
  Name : String
  Namespace : String
  Labels : StringMap
  Annotations : StringMap
  Finalizers : List String
  deriving DecidableEq, Repr

/-- Zero value of `metav1.ObjectMeta`. -/
def ObjectMeta.zero : ObjectMeta :=
  { Name := "", Namespace := "", Labels := [], Annotations := [], Finalizers := [] }

/-- The type `v1alpha1.CheManagerSpec`: `Routing` is of the string type `CheManagerRouting`. -/
structure CheManagerSpec where
  Host : String
  Routing : String
  deriving DecidableEq, Repr

/-- The type `v1alpha1.CheManager`, with the fields that the sources and their tests use. -/
structure CheManager where
  ObjectMeta : ObjectMeta
  Spec : CheManagerSpec
  deriving DecidableEq, Repr

/-- The composite literal `v1alpha1.CheManager{}`. -/
def CheManager.zero : CheManager :=
  { ObjectMeta := ObjectMeta.zero, Spec := { Host := "", Routing := "" } }

/-- Promoted field `manager.Name`. -/
def CheManager.Name (m : CheManager) : String := m.ObjectMeta.Name

/-- Promoted field `manager.Namespace`. -/
def CheManager.Namespace (m : CheManager) : String := m.ObjectMeta.Namespace

/-- The shared map of the reconciled managers, `map[client.ObjectKey]v1alpha1.CheManager`, as
`manager.GetCurrentManagers()` returns it. A Go map has no two entries under one key; the
theorems below hold for every association list, hence for every map. -/
abbrev Registry := List (ObjectKey × CheManager)

/-- Keys of a registry are pairwise distinct, as in a Go map. -/
def Registry.WF (managers : Registry) : Prop :=
  (managers.map Prod.fst).Nodup

instance (managers : Registry) : Decidable (Registry.WF managers) := by
  unfold Registry.WF; infer_instance

/-- The constant `time.Second`, in nanoseconds. -/
def Second : Nat := 1000000000

/-- Go errors that the sources create or pass on. -/
inductive GoError where
  /-- The value `solvers.RoutingNotSupported`. -/
  | RoutingNotSupported
  /-- The value `&solvers.RoutingNotReady{Retry: d}`. -/
  | RoutingNotReady (Retry : Nat)
  /-- The value `&solvers.RoutingInvalid{Reason: r}`. -/
  | RoutingInvalid (Reason : String)
  /-- An error made by `fmt.Errorf`, or returned by a collaborator, with its message. -/
  | Errorf (msg : String)
  deriving DecidableEq, Repr

/-- Constants of the packages `defaults`, `config` and `v1alpha1`, which are not among the
sources: the definitions below take them as a parameter. -/
structure Consts where
  ConfigAnnotationCheManagerName : String
  ConfigAnnotationCheManagerNamespace : String
  ConfigAnnotationWorkspaceRoutingName : String
  ConfigAnnotationWorkspaceRoutingNamespace : String
  WorkspaceIDLabel : String
  SingleHost : String
  MultiHost : String
  deriving DecidableEq, Repr

/-- The type `corev1.Service`, reduced to its metadata. -/
structure Service where
  ObjectMeta : ObjectMeta
  deriving DecidableEq, Repr

/-- The type `extensions.Ingress`, reduced to its metadata. -/
structure Ingress where
  ObjectMeta : ObjectMeta
  deriving DecidableEq, Repr

/-- The type `routev1.Route`, reduced to its metadata. -/
structure Route where
  ObjectMeta : ObjectMeta
  deriving DecidableEq, Repr

/-- The type `corev1.ConfigMap`: metadata and `Data`. -/
structure ConfigMap where
  ObjectMeta : ObjectMeta
  Data : StringMap
  deriving DecidableEq, Repr

/-- The type `dwo.PodAdditions`, reduced to its annotations and labels. -/
structure PodAdditions where
  Annotations : StringMap
  Labels : StringMap
  deriving DecidableEq, Repr

/-- The type `solvers.RoutingObjects`; `PodAdditions` is a pointer, `none` being `nil`. -/
structure RoutingObjects where
  Services : List Service
  Ingresses : List Ingress
  Routes : List Route
  PodAdditions : Option PodAdditions
  deriving DecidableEq, Repr

/-- The composite literal `solvers.RoutingObjects{}`. -/
def RoutingObjects.zero : RoutingObjects :=
  { Services := [], Ingresses := [], Routes := [], PodAdditions := none }

/-- The type `dwo.Endpoint`. -/
structure Endpoint where
  Name : String
  TargetPort : Nat
  Exposure : String
  Protocol : String
  Path : String
  Secure : Bool
  Attributes : StringMap
  deriving DecidableEq, Repr

/-- The type `dwo.ExposedEndpoint`. -/
structure ExposedEndpoint where
  Name : String
  Url : String
  Attributes : StringMap
  deriving DecidableEq, Repr

/-- The type `map[string]dwo.EndpointList`. -/
abbrev EndpointMap := List (String × List Endpoint)

/-- The type `map[string]dwo.ExposedEndpointList`. -/
abbrev ExposedEndpointMap := List (String × List ExposedEndpoint)

/-- The type `dwo.WorkspaceRoutingSpec`. -/
structure WorkspaceRoutingSpec where
  WorkspaceId : String
  RoutingClass : String
  RoutingSuffix : String
  Endpoints : EndpointMap
  PodSelector : StringMap
  deriving DecidableEq, Repr

/-- The type `dwo.WorkspaceRouting`. -/
structure WorkspaceRouting where
  ObjectMeta : ObjectMeta
  Spec : WorkspaceRoutingSpec
  deriving DecidableEq, Repr

/-- Promoted field `routing.Annotations`. -/
def WorkspaceRouting.Annotations (r : WorkspaceRouting) : StringMap := r.ObjectMeta.Annotations

/-- The type `solvers.WorkspaceMetadata`. -/
structure WorkspaceMetadata where
  WorkspaceId : String
  Namespace : String
  PodSelector : StringMap
  RoutingSuffix : String
  deriving DecidableEq, Repr

/-! ## `pkg/util/util.go` -/

namespace util

/-- The function `IsSingleHost`. -/
def IsSingleHost (c : Consts) (mgr : CheManager) : Bool :=
  let routing := mgr.Spec.Routing
  routing == "" || routing == c.SingleHost

end util

/-! ## `pkg/solver/solver.go` -/

namespace solver

/-- The message of the `RoutingInvalid` error of `findCheManager`, for `n` managers. -/
def noManagerNamedReason (n : Nat) : String :=
  "the routing does not specify any Che manager in its configuration but there are "
    ++ toString n ++ " Che managers in the cluster"

/-- The function `findCheManager`, on the snapshot `managers` that
`manager.GetCurrentManagers()` returned. The result is the record behind the returned
pointer, which is never `nil`, and the error. -/
def findCheManager (managers : Registry) (cheManagerKey : ObjectKey) :
    CheManager × Option GoError :=
  if managers.length = 0 then
    -- the CheManager has not been reconciled yet, so let's wait a bit
    (CheManager.zero, some (GoError.RoutingNotReady (1 * Second)))
  else
    let early : Option (CheManager × Option GoError) :=
      if cheManagerKey.Name.length = 0 then
        if managers.length > 1 then
          some (CheManager.zero,
            some (GoError.RoutingInvalid (noManagerNamedReason managers.length)))
        else
          -- `for _, m := range managers { return &m, nil }`
          match managers with
          | (_, m) :: _ => some (m, none)
          | [] => none
      else
        none
    match early with
    | some r => r
    | none =>
      match managers.lookup cheManagerKey with
      | some m => (m, none)
      | none => (CheManager.zero, some (GoError.RoutingNotReady (10 * Second)))

/-- The function `cheManagerOfRouting`. -/
def cheManagerOfRouting (c : Consts) (managers : Registry) (routing : WorkspaceRouting) :
    CheManager × Option GoError :=
  let cheName := routing.Annotations.index c.ConfigAnnotationCheManagerName
  let cheNamespace := routing.Annotations.index c.ConfigAnnotationCheManagerNamespace
  findCheManager managers { Name := cheName, Namespace := cheNamespace }

/-- The method `CheRoutingSolver.GetSpecObjects`. The methods `singlehostSpecObjects` and
`multihostSpecObjects` are parameters; `cluster` is the state behind the client. -/
def GetSpecObjects {σ : Type} (c : Consts)
    (singlehostSpecObjects multihostSpecObjects :
      CheManager → WorkspaceRouting → WorkspaceMetadata → σ →
        (RoutingObjects × Option GoError) × σ)
    (managers : Registry) (routing : WorkspaceRouting) (workspaceMeta : WorkspaceMetadata)
    (cluster : σ) : (RoutingObjects × Option GoError) × σ :=
  match cheManagerOfRouting c managers routing with
  | (_, some err) => ((RoutingObjects.zero, some err), cluster)
  | (cheManager, none) =>
    if util.IsSingleHost c cheManager then
      singlehostSpecObjects cheManager routing workspaceMeta cluster
    else
      multihostSpecObjects cheManager routing workspaceMeta cluster

/-- The method `CheRoutingSolver.Finalize`. The methods `singlehostFinalize` and
`multihostFinalize` of the solver are parameters; `cluster` is the state behind the client. -/
def Finalize {σ : Type} (c : Consts)
    (singlehostFinalize multihostFinalize :
      CheManager → WorkspaceRouting → σ → Option GoError × σ)
    (managers : Registry) (routing : WorkspaceRouting) (cluster : σ) :
    Option GoError × σ :=
  match cheManagerOfRouting c managers routing with
  | (_, some err) => (some err, cluster)
  | (cheManager, none) =>
    if util.IsSingleHost c cheManager then
      singlehostFinalize cheManager routing cluster
    else
      multihostFinalize cheManager routing cluster

/-- The method `CheRoutingSolver.GetExposedEndpoints`. The methods `singlehostExposedEndpoints`
and `multihostExposedEndpoints` are parameters. The first component of the result is the
returned map, `none` being the `nil` map. -/
def GetExposedEndpoints {σ : Type} (c : Consts)
    (singlehostExposedEndpoints multihostExposedEndpoints :
      CheManager → String → EndpointMap → RoutingObjects → σ →
        (Option ExposedEndpointMap × Bool × Option GoError) × σ)
    (managers : Registry) (endpoints : EndpointMap) (routingObj : RoutingObjects)
    (cluster : σ) : (Option ExposedEndpointMap × Bool × Option GoError) × σ :=
  match routingObj.Services with
  | [] => ((some [], true, none), cluster) -- `len(routingObj.Services) == 0`
  | svc :: _ => -- `svc` is `routingObj.Services[0]`
    let managerName := svc.ObjectMeta.Annotations.index c.ConfigAnnotationCheManagerName
    let managerNamespace := svc.ObjectMeta.Annotations.index c.ConfigAnnotationCheManagerNamespace
    let workspaceID := svc.ObjectMeta.Labels.index c.WorkspaceIDLabel
    match findCheManager managers { Name := managerName, Namespace := managerNamespace } with
    | (_, some err) => ((none, false, some err), cluster)
    | (manager, none) =>
      if util.IsSingleHost c manager then
        singlehostExposedEndpoints manager workspaceID endpoints routingObj cluster
      else
        multihostExposedEndpoints manager workspaceID endpoints routingObj cluster

end solver

/-! ## `pkg/manager/singlehost.go`, `pkg/manager/multihost.go` -/

namespace manager

/-- The type `client.ListOptions`, with the two fields that `singlehostFinalize` sets; the
label selector is the set of labels it was made from. -/
structure ListOptions where
  Namespace : String
  LabelSelector : StringMap
  deriving DecidableEq, Repr

/-- The condition of the loop of `singlehostFinalize`: both annotations of the config map
name the manager. -/
def belongsTo (c : Consts) (manager : CheManager) (cm : ConfigMap) : Bool :=
  cm.ObjectMeta.Annotations.index c.ConfigAnnotationCheManagerName == manager.Name
    && cm.ObjectMeta.Annotations.index c.ConfigAnnotationCheManagerNamespace
      == manager.Namespace

/-- The loop of `singlehostFinalize` that counts the config maps of the manager. -/
def countWorkspaces (c : Consts) (manager : CheManager) (items : List ConfigMap) : Nat :=
  items.foldl
    (fun workspaceCount cm =>
      if belongsTo c manager cm then workspaceCount + 1 else workspaceCount)
    0

/-- The message of the error of `singlehostFinalize`, for `n` counted workspaces. -/
def workspacesLeftMessage (n : Nat) : String :=
  "there are " ++ toString n ++ " workspaces associated with this Che manager"

/-- The method `CheReconciler.singlehostFinalize`. The call `r.client.List` is the parameter
`clientList`, from the list options to an error or the listed config maps, and
`defaults.GetLabelsForComponent` is the parameter `GetLabelsForComponent`. The counter is a
Go `int`; it is bounded by the number of listed items, so it does not overflow. -/
def singlehostFinalize (c : Consts)
    (GetLabelsForComponent : CheManager → String → StringMap)
    (clientList : ListOptions → Except GoError (List ConfigMap))
    (manager : CheManager) : Option GoError :=
  match clientList
      { Namespace := manager.Namespace,
        LabelSelector := GetLabelsForComponent manager "gateway-config" } with
  | Except.error err => some err
  | Except.ok items =>
    let workspaceCount := countWorkspaces c manager items
    if workspaceCount > 0 then
      some (GoError.Errorf (workspacesLeftMessage workspaceCount))
    else
      none

/-- The method `CheReconciler.multihostFinalize`; `cluster` is the state behind the client of
the reconciler, which the method does not use. -/
def multihostFinalize {σ : Type} (_cluster : σ) (_manager : CheManager) : Option GoError :=
  -- Multihost not supported at the moment
  some (GoError.Errorf "Multihost mode not supported at the moment.")

end manager

/-! ## `pkg/solver/solver.go`: negotiation of the solver and the watch of the config maps -/

namespace solver

/-- The type `CheRoutingSolver`; the types of the client and of the scheme are arbitrary. -/
structure CheRoutingSolver (κ ς : Type) where
  client : κ
  scheme : ς

/-- The type `CheRouterGetter`. -/
structure CheRouterGetter (ς : Type) where
  scheme : ς

/-- The function `Getter`. -/
def Getter {ς : Type} (scheme : ς) : CheRouterGetter ς :=
  { scheme := scheme }

/-- The function `isSupported`; a `WorkspaceRoutingClass` is a string. -/
def isSupported (routingClass : String) : Bool :=
  routingClass == "che"

/-- The method `CheRouterGetter.HasSolver`. -/
def CheRouterGetter.HasSolver {ς : Type} (_g : CheRouterGetter ς) (routingClass : String) :
    Bool :=
  isSupported routingClass

/-- The method `CheRouterGetter.GetSolver`: the solver, `none` being `nil`, and the error. -/
def CheRouterGetter.GetSolver {κ ς : Type} (g : CheRouterGetter ς) (client : κ)
    (routingClass : String) : Option (CheRoutingSolver κ ς) × Option GoError :=
  if !isSupported routingClass then
    (none, some GoError.RoutingNotSupported)
  else
    (some { client := client, scheme := g.scheme }, none)

/-- The composite literal `types.NamespacedName{}`. -/
def ObjectKey.zero : ObjectKey :=
  { Name := "", Namespace := "" }

/-- The function `isGatewayWorkspaceConfig`, on the metadata of the object. The function
`defaults.GetGatewayWorkpaceConfigMapName` is a parameter. -/
def isGatewayWorkspaceConfig (c : Consts) (GetGatewayWorkpaceConfigMapName : String → String)
    (obj : ObjectMeta) : Bool × ObjectKey :=
  let workspaceID := obj.Labels.index c.WorkspaceIDLabel
  let objectName := obj.Name
  -- bail out quickly if we're not dealing with a configmap with an expected name
  if objectName != GetGatewayWorkpaceConfigMapName workspaceID then
    (false, ObjectKey.zero)
  else
    let routingName := obj.Annotations.index c.ConfigAnnotationWorkspaceRoutingName
    let routingNamespace := obj.Annotations.index c.ConfigAnnotationWorkspaceRoutingNamespace
    -- if there is no annotation for the routing, we're out of luck
    if routingName == "" then
      (false, ObjectKey.zero)
    else
      -- cool, we found a configmap belonging to a concrete workspace routing
      (true, { Name := routingName, Namespace := routingNamespace })

/-- The type `reconcile.Request`. -/
structure Request where
  NamespacedName : ObjectKey
  deriving DecidableEq, Repr

/-- The map function that `SetupControllerManager` installs on the watch of the config maps,
on the metadata `mo.Meta` of the changed object. -/
def ToRequestsFunc (c : Consts) (GetGatewayWorkpaceConfigMapName : String → String)
    (mo : ObjectMeta) : List Request :=
  match isGatewayWorkspaceConfig c GetGatewayWorkpaceConfigMapName mo with
  | (true, key) => [{ NamespacedName := key }]
  | (false, _) => []

end solver

/-! ## Parts of the repository outside the sources, modelled from the spec -/

/-- Modelled from the spec: the operation `Delete(key)` of the manager registry, which lives in
`pkg/manager/chemanager_controller.go`, a file that is not among the sources. No record is
left under the key. -/
def Registry.Delete (key : ObjectKey) (registry : Registry) : Registry :=
  registry.filter (fun entry => entry.1 != key)

/-- Modelled from the spec: the operation `Put(key, record)` of the manager registry, which
lives in `pkg/manager/chemanager_controller.go`, a file that is not among the sources. The
record replaces the one that was under the key. -/
def Registry.Put (key : ObjectKey) (record : CheManager) (registry : Registry) : Registry :=
  (key, record) :: Registry.Delete key registry

/-- Modelled from the spec: the operation `Get(key)` of the manager registry, which lives in
`pkg/manager/chemanager_controller.go`, a file that is not among the sources. -/
def Registry.Get (key : ObjectKey) (registry : Registry) : Option CheManager :=
  registry.lookup key

namespace manager

/-- Modelled from the spec: the method `CheReconciler.Reconcile` of
`pkg/manager/chemanager_controller.go`, which is not among the sources (its tests are). The
spec, section 4.2: on reconcile of an existing manager object the dependent gateway objects
are synthesized by an external collaborator and "on every success" the manager is `Put` into
the registry; on reconcile where the manager object no longer exists its key is deleted from
the registry and the result is success. The read of the manager object is the parameter
`getManager`, the collaborator is the parameter `syncGateway`. The spec does not say what a
failed reconcile does to the registry; it is left as it was. -/
def Reconcile {σ : Type} (getManager : σ → ObjectKey → Except GoError (Option CheManager))
    (syncGateway : CheManager → σ → Option GoError × σ)
    (key : ObjectKey) (cluster : σ) (registry : Registry) : Option GoError × σ × Registry :=
  match getManager cluster key with
  | Except.error err => (some err, cluster, registry)
  | Except.ok none => (none, cluster, Registry.Delete key registry)
  | Except.ok (some current) =>
    match syncGateway current cluster with
    | (some err, cluster₂) => (some err, cluster₂, registry)
    | (none, cluster₂) => (none, cluster₂, Registry.Put key current registry)

end manager

namespace solver

/-- Modelled from the spec: the scheme of the URL of an endpoint, which the method
`singlehostExposedEndpoints` of `pkg/solver/singlehost.go` computes; that file is not among
the sources. The spec, section 4.3: the scheme "is `https` when the endpoint's `secure` flag is
set OR its declared protocol is `https`/`wss`, else `http`/`ws` accordingly". -/
def endpointScheme (e : Endpoint) : String :=
  if e.Secure || e.Protocol == "https" || e.Protocol == "wss" then
    "https"
  else if e.Protocol == "ws" then
    "ws"
  else
    "http"

/-- Modelled from the spec: the path of the URL of an endpoint, which the method
`singlehostExposedEndpoints` of `pkg/solver/singlehost.go` computes; that file is not among
the sources. The spec, section 4.3: the path "defaults to `/` when unset, is NOT prefixed with
an extra slash when already absolute". -/
def endpointPath (e : Endpoint) : String :=
  match e.Path.data with
  | [] => "/"
  | '/' :: _ => e.Path
  | _ :: _ => "/" ++ e.Path

/-- Modelled from the spec: the URL of an endpoint, which the method
`singlehostExposedEndpoints` of `pkg/solver/singlehost.go` computes; that file is not among
the sources. The spec, section 4.3: "the resolved URL is
`scheme://host/workspaceId/component/targetPort/path`". -/
def endpointUrl (host workspaceID component : String) (e : Endpoint) : String :=
  endpointScheme e ++ "://" ++ host ++ "/" ++ workspaceID ++ "/" ++ component ++ "/"
    ++ toString e.TargetPort ++ endpointPath e

/-- Modelled from the spec: the method `CheRoutingSolver.singlehostExposedEndpoints` of
`pkg/solver/singlehost.go`, which is not among the sources. The spec, section 4.3: every
declared endpoint gets its URL, in the order of the declaration, and `ready = true`; the result
is `ready = false` with no error when the gateway of the manager is not yet established.
Whether it is established is the parameter `established`, the status of a manager being
declared outside the sources. -/
def singlehostExposedEndpoints {σ : Type} (established : CheManager → Bool)
    (manager : CheManager) (workspaceID : String) (endpoints : EndpointMap)
    (_routingObj : RoutingObjects) (cluster : σ) :
    (Option ExposedEndpointMap × Bool × Option GoError) × σ :=
  if established manager then
    ((some (endpoints.map (fun entry =>
        (entry.1, entry.2.map (fun e =>
          ExposedEndpoint.mk e.Name (endpointUrl manager.Spec.Host workspaceID entry.1 e)
            e.Attributes)))),
      true, none), cluster)
  else
    ((none, false, none), cluster)

/-- Modelled from the spec: the name of the entry of a config object that holds the routing
table fragment of a workspace; the fragments are written by `pkg/solver/singlehost.go`, which
is not among the sources. The spec, section 6: the fragment is "persisted inside a config
object's `<workspaceId>.yml` entry". -/
def fragmentEntry (workspaceID : String) : String :=
  workspaceID ++ ".yml"

/-- Modelled from the spec: the method `CheRoutingSolver.singlehostFinalize` of
`pkg/solver/singlehost.go`, which is not among the sources. The cluster is the list of its
config objects, which the spec identifies by their names: "the per-workspace gateway config
object is named exactly by the workspace id; the per-manager gateway config object is named
exactly by the manager's name". The spec, section 4.3: finalize removes "the workspace-scoped
routing-table fragment from both the workspace config object and the manager's merged config
object" and deletes "the workspace config object entirely if it becomes empty". Reads and
writes of the object store succeed. -/
def singlehostFinalize (manager : CheManager) (routing : WorkspaceRouting)
    (cluster : List ConfigMap) : Option GoError × List ConfigMap :=
  let workspaceID := routing.Spec.WorkspaceId
  let withoutFragment := fun (cm : ConfigMap) =>
    cm.Data.filter (fun kv => kv.1 != fragmentEntry workspaceID)
  (none,
    cluster.filterMap (fun cm =>
      if cm.ObjectMeta.Name == workspaceID then
        if (withoutFragment cm).isEmpty then
          none
        else
          some (ConfigMap.mk cm.ObjectMeta (withoutFragment cm))
      else if cm.ObjectMeta.Name == manager.Name then
        some (ConfigMap.mk cm.ObjectMeta (withoutFragment cm))
      else
        some cm))

end solver

/-! ## Auxiliary facts -/

theorem StringMap.index_of_lookup_none (m : StringMap) (k : String)
    (h : m.lookup k = none) : m.index k = "" := by
  simp [StringMap.index, h]

theorem StringMap.index_of_lookup_empty (m : StringMap) (k : String)
    (h : m.lookup k = some "") : m.index k = "" := by
  simp [StringMap.index, h]

theorem StringMap.index_unnamed (m : StringMap) (k : String)
    (h : m.lookup k = none ∨ m.lookup k = some "") : m.index k = "" := by
  rcases h with h | h
  · exact StringMap.index_of_lookup_none m k h
  · exact StringMap.index_of_lookup_empty m k h

theorem string_length_eq_zero_iff (s : String) : s.length = 0 ↔ s = "" := by
  constructor
  · intro h
    cases s with
    | mk data =>
      have hd : data = [] := List.length_eq_zero.mp h
      subst hd
      rfl
  · intro h
    subst h
    rfl

namespace solver

theorem findCheManager_empty (key : ObjectKey) :
    findCheManager [] key = (CheManager.zero, some (GoError.RoutingNotReady (1 * Second))) := by
  simp [findCheManager]

theorem findCheManager_unnamed_single (k key : ObjectKey) (m : CheManager)
    (hname : key.Name = "") : findCheManager [(k, m)] key = (m, none) := by
  simp [findCheManager, hname]

theorem findCheManager_unnamed_many (managers : Registry) (key : ObjectKey)
    (hmany : 1 < managers.length) (hname : key.Name = "") :
    findCheManager managers key
      = (CheManager.zero,
          some (GoError.RoutingInvalid (noManagerNamedReason managers.length))) := by
  have h0 : managers.length ≠ 0 := by omega
  simp [findCheManager, h0, hname, hmany]

theorem findCheManager_named (managers : Registry) (key : ObjectKey)
    (hne : managers ≠ []) (hname : key.Name ≠ "") :
    findCheManager managers key
      = match managers.lookup key with
        | some m => (m, none)
        | none => (CheManager.zero, some (GoError.RoutingNotReady (10 * Second))) := by
  have h0 : managers.length ≠ 0 := by
    intro h
    exact hne (List.length_eq_zero.mp h)
  have hl : key.Name.length ≠ 0 := by
    intro h
    exact hname ((string_length_eq_zero_iff _).mp h)
  simp [findCheManager, h0, hl]


theorem cheManagerOfRouting_unnamed_key (c : Consts) (routing : WorkspaceRouting)
    (hanno : routing.Annotations.lookup c.ConfigAnnotationCheManagerName = none
      ∨ routing.Annotations.lookup c.ConfigAnnotationCheManagerName = some "") :
    (ObjectKey.mk (routing.Annotations.index c.ConfigAnnotationCheManagerNamespace)
      (routing.Annotations.index c.ConfigAnnotationCheManagerName)).Name = "" :=
  StringMap.index_unnamed _ _ hanno

/-! ## Manager resolution -/

/-- C1: with an empty registry, `GetSpecObjects` returns the empty `RoutingObjects` (no
services, ingresses, routes or pod additions) and a `RoutingNotReady` error whose retry delay
is one second, for every routing, and it leaves the cluster as it was. -/
theorem GetSpecObjects_empty_registry {σ : Type} (c : Consts)
    (singlehostSpecObjects multihostSpecObjects :
      CheManager → WorkspaceRouting → WorkspaceMetadata → σ →
        (RoutingObjects × Option GoError) × σ)
    (routing : WorkspaceRouting) (workspaceMeta : WorkspaceMetadata) (cluster : σ) :
    GetSpecObjects c singlehostSpecObjects multihostSpecObjects [] routing workspaceMeta cluster
        = ((RoutingObjects.zero, some (GoError.RoutingNotReady 1000000000)), cluster)
      ∧ RoutingObjects.zero.Services = [] ∧ RoutingObjects.zero.Ingresses = []
      ∧ RoutingObjects.zero.Routes = [] ∧ RoutingObjects.zero.PodAdditions = none
      ∧ 1000000000 = 1 * Second := by
  refine ⟨?_, rfl, rfl, rfl, rfl, rfl⟩
  simp [GetSpecObjects, cheManagerOfRouting, findCheManager_empty, Second]

/-- C2, as stated, fails: in the empty registry there is no record under the key
`(ns, che)`, whose name is not empty, and `findCheManager` answers `RoutingNotReady` with a
delay of one second, not ten. -/
theorem findCheManager_missing_in_empty_registry :
    (ObjectKey.mk "ns" "che").Name ≠ ""
      ∧ List.lookup (ObjectKey.mk "ns" "che") ([] : Registry) = none
      ∧ (findCheManager [] (ObjectKey.mk "ns" "che")).2
          = some (GoError.RoutingNotReady (1 * Second))
      ∧ (findCheManager [] (ObjectKey.mk "ns" "che")).2
          ≠ some (GoError.RoutingNotReady (10 * Second)) := by
  decide

/-- C2, amended: for every registry that is not empty and every key whose name is not empty,
if the registry has no record under the key then `findCheManager` fails with
`RoutingNotReady` and a delay of ten seconds, and so does `GetSpecObjects`, with the empty
`RoutingObjects`, for every routing whose annotations give that key. -/
theorem findCheManager_missing_named (managers : Registry) (key : ObjectKey)
    (hne : managers ≠ []) (hname : key.Name ≠ "") (hmiss : managers.lookup key = none) :
    findCheManager managers key
        = (CheManager.zero, some (GoError.RoutingNotReady (10 * Second)))
      ∧ 10 * Second = 10000000000
      ∧ ∀ (σ : Type) (c : Consts)
          (singlehostSpecObjects multihostSpecObjects :
            CheManager → WorkspaceRouting → WorkspaceMetadata → σ →
              (RoutingObjects × Option GoError) × σ)
          (routing : WorkspaceRouting) (workspaceMeta : WorkspaceMetadata) (cluster : σ),
          routing.Annotations.index c.ConfigAnnotationCheManagerName = key.Name →
          routing.Annotations.index c.ConfigAnnotationCheManagerNamespace = key.Namespace →
          GetSpecObjects c singlehostSpecObjects multihostSpecObjects managers routing
              workspaceMeta cluster
            = ((RoutingObjects.zero, some (GoError.RoutingNotReady (10 * Second))), cluster) := by
  have hfind : findCheManager managers key
      = (CheManager.zero, some (GoError.RoutingNotReady (10 * Second))) := by
    rw [findCheManager_named managers key hne hname, hmiss]
  refine ⟨hfind, rfl, ?_⟩
  intro σ c sh mh routing workspaceMeta cluster hn hns
  have hkey : (ObjectKey.mk (routing.Annotations.index c.ConfigAnnotationCheManagerNamespace)
      (routing.Annotations.index c.ConfigAnnotationCheManagerName)) = key := by
    cases key
    simp_all
  simp only [GetSpecObjects, cheManagerOfRouting, hkey, hfind]

/-- Witness of C2, amended: the manager `(ns, other)` is asked of a registry that holds
only `(ns, che)`. -/
theorem findCheManager_missing_named_witness :
    ([(ObjectKey.mk "ns" "che", CheManager.zero)] : Registry) ≠ []
      ∧ (ObjectKey.mk "ns" "other").Name ≠ ""
      ∧ List.lookup (ObjectKey.mk "ns" "other")
          ([(ObjectKey.mk "ns" "che", CheManager.zero)] : Registry) = none
      ∧ findCheManager [(ObjectKey.mk "ns" "che", CheManager.zero)] (ObjectKey.mk "ns" "other")
          = (CheManager.zero, some (GoError.RoutingNotReady (10 * Second))) :=
  ⟨by decide, by decide, by decide,
    (findCheManager_missing_named [(ObjectKey.mk "ns" "che", CheManager.zero)]
      (ObjectKey.mk "ns" "other") (by decide) (by decide) (by decide)).1⟩


/-- C3: when the registry holds exactly one record and the routing has no manager-name
annotation, or an empty one, `cheManagerOfRouting` returns that record and no error; so does
`findCheManager` for every key with an empty name, whatever its namespace. -/
theorem cheManagerOfRouting_sole_manager (c : Consts) (managers : Registry)
    (k : ObjectKey) (m : CheManager) (routing : WorkspaceRouting)
    (hone : managers = [(k, m)])
    (hanno : routing.Annotations.lookup c.ConfigAnnotationCheManagerName = none
      ∨ routing.Annotations.lookup c.ConfigAnnotationCheManagerName = some "") :
    managers.length = 1
      ∧ cheManagerOfRouting c managers routing = (m, none)
      ∧ ∀ ns : String, findCheManager managers (ObjectKey.mk ns "") = (m, none) := by
  subst hone
  refine ⟨rfl, ?_, ?_⟩
  · exact findCheManager_unnamed_single k _ m (cheManagerOfRouting_unnamed_key c routing hanno)
  · intro ns
    exact findCheManager_unnamed_single k _ m rfl

/-- Witness of C3: the registry of the tests, with the manager `(ns, che)`, and a routing
without annotations. -/
theorem cheManagerOfRouting_sole_manager_witness :
    cheManagerOfRouting
        (Consts.mk "che-name" "che-namespace" "routing-name" "routing-namespace"
          "workspace-id" "singlehost" "multihost")
        [(ObjectKey.mk "ns" "che",
          CheManager.mk (ObjectMeta.mk "che" "ns" [] [] []) (CheManagerSpec.mk "over.the.rainbow" ""))]
        (WorkspaceRouting.mk (ObjectMeta.mk "routing" "ws" [] [] [])
          (WorkspaceRoutingSpec.mk "wsid" "che" "" [] []))
      = (CheManager.mk (ObjectMeta.mk "che" "ns" [] [] [])
          (CheManagerSpec.mk "over.the.rainbow" ""), none) :=
  (cheManagerOfRouting_sole_manager
    (Consts.mk "che-name" "che-namespace" "routing-name" "routing-namespace"
      "workspace-id" "singlehost" "multihost")
    _ (ObjectKey.mk "ns" "che")
    (CheManager.mk (ObjectMeta.mk "che" "ns" [] [] []) (CheManagerSpec.mk "over.the.rainbow" ""))
    (WorkspaceRouting.mk (ObjectMeta.mk "routing" "ws" [] [] [])
      (WorkspaceRoutingSpec.mk "wsid" "che" "" [] []))
    rfl (Or.inl (by decide))).2.1

/-- C4: when the registry holds more than one record and the routing has no manager-name
annotation, or an empty one, `cheManagerOfRouting` fails with `RoutingInvalid`, which is not
a `RoutingNotReady` of any delay, and the record it returns is the zero value, not a record
chosen from the registry. -/
theorem cheManagerOfRouting_ambiguous (c : Consts) (managers : Registry)
    (routing : WorkspaceRouting) (hmany : 1 < managers.length)
    (hanno : routing.Annotations.lookup c.ConfigAnnotationCheManagerName = none
      ∨ routing.Annotations.lookup c.ConfigAnnotationCheManagerName = some "") :
    cheManagerOfRouting c managers routing
        = (CheManager.zero,
            some (GoError.RoutingInvalid (noManagerNamedReason managers.length)))
      ∧ (∀ d : Nat, (cheManagerOfRouting c managers routing).2
          ≠ some (GoError.RoutingNotReady d))
      ∧ (cheManagerOfRouting c managers routing).2 ≠ none := by
  have h : cheManagerOfRouting c managers routing
      = (CheManager.zero,
          some (GoError.RoutingInvalid (noManagerNamedReason managers.length))) :=
    findCheManager_unnamed_many managers _ hmany
      (cheManagerOfRouting_unnamed_key c routing hanno)
  refine ⟨h, ?_, ?_⟩
  · intro d
    rw [h]
    simp
  · rw [h]
    simp

/-- Witness of C4: two managers, `(ns, che)` and `(ns, che2)`, and a routing whose
manager-name annotation is empty. -/
theorem cheManagerOfRouting_ambiguous_witness :
    (cheManagerOfRouting
        (Consts.mk "che-name" "che-namespace" "routing-name" "routing-namespace"
          "workspace-id" "singlehost" "multihost")
        [(ObjectKey.mk "ns" "che",
            CheManager.mk (ObjectMeta.mk "che" "ns" [] [] []) (CheManagerSpec.mk "h1" "")),
          (ObjectKey.mk "ns" "che2",
            CheManager.mk (ObjectMeta.mk "che2" "ns" [] [] []) (CheManagerSpec.mk "h2" ""))]
        (WorkspaceRouting.mk (ObjectMeta.mk "routing" "ws" [] [("che-name", "")] [])
          (WorkspaceRoutingSpec.mk "wsid" "che" "" [] []))).2
      = some (GoError.RoutingInvalid (noManagerNamedReason 2)) :=
  congrArg Prod.snd
    (cheManagerOfRouting_ambiguous
      (Consts.mk "che-name" "che-namespace" "routing-name" "routing-namespace"
        "workspace-id" "singlehost" "multihost")
      [(ObjectKey.mk "ns" "che",
          CheManager.mk (ObjectMeta.mk "che" "ns" [] [] []) (CheManagerSpec.mk "h1" "")),
        (ObjectKey.mk "ns" "che2",
          CheManager.mk (ObjectMeta.mk "che2" "ns" [] [] []) (CheManagerSpec.mk "h2" ""))]
      (WorkspaceRouting.mk (ObjectMeta.mk "routing" "ws" [] [("che-name", "")] [])
        (WorkspaceRoutingSpec.mk "wsid" "che" "" [] []))
      (by decide) (Or.inr (by decide))).1

/-- C5: for every registry and every key whose name is not empty, if the registry holds the
record `m` under the key then `findCheManager` returns `m` and no error, whatever other
records the registry holds. -/
theorem findCheManager_named_present (managers : Registry) (key : ObjectKey) (m : CheManager)
    (hname : key.Name ≠ "") (hfound : managers.lookup key = some m) :
    findCheManager managers key = (m, none) := by
  have hne : managers ≠ [] := by
    intro h
    subst h
    simp at hfound
  rw [findCheManager_named managers key hne hname, hfound]

/-- Witness of C5: the record under `(ns, che2)` of a registry of two managers. -/
theorem findCheManager_named_present_witness :
    findCheManager
        [(ObjectKey.mk "ns" "che",
            CheManager.mk (ObjectMeta.mk "che" "ns" [] [] []) (CheManagerSpec.mk "h1" "")),
          (ObjectKey.mk "ns" "che2",
            CheManager.mk (ObjectMeta.mk "che2" "ns" [] [] []) (CheManagerSpec.mk "h2" ""))]
        (ObjectKey.mk "ns" "che2")
      = (CheManager.mk (ObjectMeta.mk "che2" "ns" [] [] []) (CheManagerSpec.mk "h2" ""), none) :=
  findCheManager_named_present _ (ObjectKey.mk "ns" "che2") _ (by decide) (by decide)


/-! ## Finalization of a routing -/

/-- C6, as stated, fails: with an empty registry the manager of the routing is not
resolved, and `Finalize` returns the `RoutingNotReady` error of the resolution, even when both
mode specific finalizers would succeed. -/
theorem Finalize_fails_on_empty_registry :
    (cheManagerOfRouting
        (Consts.mk "che-name" "che-namespace" "routing-name" "routing-namespace"
          "workspace-id" "singlehost" "multihost")
        []
        (WorkspaceRouting.mk
          (ObjectMeta.mk "routing" "ws" [] [("che-name", "che"), ("che-namespace", "ns")] [])
          (WorkspaceRoutingSpec.mk "wsid" "che" "" [] []))).2 ≠ none
      ∧ Finalize
          (Consts.mk "che-name" "che-namespace" "routing-name" "routing-namespace"
            "workspace-id" "singlehost" "multihost")
          (fun _ _ (s : Unit) => (none, s)) (fun _ _ (s : Unit) => (none, s))
          []
          (WorkspaceRouting.mk
            (ObjectMeta.mk "routing" "ws" [] [("che-name", "che"), ("che-namespace", "ns")] [])
            (WorkspaceRoutingSpec.mk "wsid" "che" "" [] []))
          ()
        = (some (GoError.RoutingNotReady (1 * Second)), ())
      ∧ (Finalize
          (Consts.mk "che-name" "che-namespace" "routing-name" "routing-namespace"
            "workspace-id" "singlehost" "multihost")
          (fun _ _ (s : Unit) => (none, s)) (fun _ _ (s : Unit) => (none, s))
          []
          (WorkspaceRouting.mk
            (ObjectMeta.mk "routing" "ws" [] [("che-name", "che"), ("che-namespace", "ns")] [])
            (WorkspaceRoutingSpec.mk "wsid" "che" "" [] []))
          ()).1 ≠ none := by
  decide

/-- C6, amended: for every routing and every registry, if the resolution of the manager
fails with the error `err` then `Finalize` returns that same error, calls neither mode
specific finalizer and leaves the cluster as it was. -/
theorem Finalize_unresolved {σ : Type} (c : Consts)
    (singlehostFinalize multihostFinalize :
      CheManager → WorkspaceRouting → σ → Option GoError × σ)
    (managers : Registry) (routing : WorkspaceRouting) (cluster : σ) (err : GoError)
    (hfail : (cheManagerOfRouting c managers routing).2 = some err) :
    Finalize c singlehostFinalize multihostFinalize managers routing cluster
      = (some err, cluster) := by
  unfold Finalize
  rcases hres : cheManagerOfRouting c managers routing with ⟨m, e⟩
  rw [hres] at hfail
  simp only at hfail
  subst hfail
  rfl

/-- Witness of C6, amended: the manager was deleted and the registry is empty. -/
theorem Finalize_unresolved_witness :
    Finalize
        (Consts.mk "che-name" "che-namespace" "routing-name" "routing-namespace"
          "workspace-id" "singlehost" "multihost")
        (fun _ _ (s : Nat) => (none, s + 1)) (fun _ _ (s : Nat) => (none, s + 1))
        []
        (WorkspaceRouting.mk (ObjectMeta.mk "routing" "ws" [] [] [])
          (WorkspaceRoutingSpec.mk "wsid" "che" "" [] []))
        7
      = (some (GoError.RoutingNotReady (1 * Second)), 7) :=
  Finalize_unresolved
    (Consts.mk "che-name" "che-namespace" "routing-name" "routing-namespace"
      "workspace-id" "singlehost" "multihost")
    (fun _ _ (s : Nat) => (none, s + 1)) (fun _ _ (s : Nat) => (none, s + 1))
    []
    (WorkspaceRouting.mk (ObjectMeta.mk "routing" "ws" [] [] [])
      (WorkspaceRoutingSpec.mk "wsid" "che" "" [] []))
    7 (GoError.RoutingNotReady (1 * Second)) (by decide)

/-- C10: when the routing objects have no services, `GetExposedEndpoints` returns an empty
map that is not `nil`, `ready = true` and no error, for every map of declared endpoints and
every registry, and it leaves the cluster as it was. -/
theorem GetExposedEndpoints_no_services {σ : Type} (c : Consts)
    (singlehostExposedEndpoints multihostExposedEndpoints :
      CheManager → String → EndpointMap → RoutingObjects → σ →
        (Option ExposedEndpointMap × Bool × Option GoError) × σ)
    (managers : Registry) (endpoints : EndpointMap) (routingObj : RoutingObjects)
    (cluster : σ) (hnone : routingObj.Services.length = 0) :
    GetExposedEndpoints c singlehostExposedEndpoints multihostExposedEndpoints managers
        endpoints routingObj cluster
      = ((some [], true, none), cluster) := by
  have hs : routingObj.Services = [] := List.length_eq_zero.mp hnone
  simp [GetExposedEndpoints, hs]

/-- Witness of C10: declared endpoints, an empty registry and no services. -/
theorem GetExposedEndpoints_no_services_witness :
    GetExposedEndpoints
        (Consts.mk "che-name" "che-namespace" "routing-name" "routing-namespace"
          "workspace-id" "singlehost" "multihost")
        (fun _ _ _ _ (s : Unit) => ((none, false, some (GoError.Errorf "unused")), s))
        (fun _ _ _ _ (s : Unit) => ((none, false, some (GoError.Errorf "unused")), s))
        []
        [("m1", [Endpoint.mk "e1" 9999 "public" "https" "/1/" false []])]
        RoutingObjects.zero ()
      = ((some [], true, none), ()) :=
  GetExposedEndpoints_no_services _ _ _ [] _ RoutingObjects.zero () (by decide)

end solver

namespace util

/-! ## Routing mode -/

/-- C9: `IsSingleHost` is true exactly when the routing mode of the manager is the empty
string or `SingleHost`. Provided that the constant `MultiHost` is neither empty nor equal to
`SingleHost`, it is false for `MultiHost`, as for every other value. -/
theorem IsSingleHost_iff (c : Consts) (mgr : CheManager)
    (hmulti : c.MultiHost ≠ "" ∧ c.MultiHost ≠ c.SingleHost) :
    (IsSingleHost c mgr = true ↔ mgr.Spec.Routing = "" ∨ mgr.Spec.Routing = c.SingleHost)
      ∧ (mgr.Spec.Routing = c.MultiHost → IsSingleHost c mgr = false)
      ∧ (mgr.Spec.Routing ≠ "" → mgr.Spec.Routing ≠ c.SingleHost →
          IsSingleHost c mgr = false) := by
  have hiff : IsSingleHost c mgr = true
      ↔ mgr.Spec.Routing = "" ∨ mgr.Spec.Routing = c.SingleHost := by
    simp [IsSingleHost]
  have hother : mgr.Spec.Routing ≠ "" → mgr.Spec.Routing ≠ c.SingleHost →
      IsSingleHost c mgr = false := by
    intro h1 h2
    cases hb : IsSingleHost c mgr with
    | false => rfl
    | true =>
      rcases hiff.mp hb with h | h
      · exact absurd h h1
      · exact absurd h h2
  refine ⟨hiff, ?_, hother⟩
  intro h
  exact hother (h ▸ hmulti.1) (h ▸ hmulti.2)

/-- Witness of C9: a manager in the `multihost` mode is not single host. -/
theorem IsSingleHost_iff_witness :
    IsSingleHost
        (Consts.mk "che-name" "che-namespace" "routing-name" "routing-namespace"
          "workspace-id" "singlehost" "multihost")
        (CheManager.mk (ObjectMeta.mk "che" "ns" [] [] [])
          (CheManagerSpec.mk "over.the.rainbow" "multihost"))
      = false :=
  (IsSingleHost_iff
    (Consts.mk "che-name" "che-namespace" "routing-name" "routing-namespace"
      "workspace-id" "singlehost" "multihost")
    (CheManager.mk (ObjectMeta.mk "che" "ns" [] [] [])
      (CheManagerSpec.mk "over.the.rainbow" "multihost"))
    (by decide)).2.1 rfl

end util

namespace manager

/-! ## Finalization of a manager -/

theorem belongsTo_iff (c : Consts) (manager : CheManager) (cm : ConfigMap) :
    belongsTo c manager cm = true
      ↔ cm.ObjectMeta.Annotations.index c.ConfigAnnotationCheManagerName = manager.Name
        ∧ cm.ObjectMeta.Annotations.index c.ConfigAnnotationCheManagerNamespace
          = manager.Namespace := by
  simp [belongsTo]

theorem countWorkspaces_foldl (c : Consts) (manager : CheManager) (items : List ConfigMap)
    (acc : Nat) :
    items.foldl
        (fun workspaceCount cm =>
          if belongsTo c manager cm then workspaceCount + 1 else workspaceCount)
        acc
      = acc + items.countP (belongsTo c manager) := by
  induction items generalizing acc with
  | nil => simp
  | cons cm rest ih =>
    rw [List.foldl_cons, ih, List.countP_cons]
    by_cases hb : belongsTo c manager cm = true
    · simp only [hb, if_true]
      omega
    · simp only [hb]
      simp

theorem countWorkspaces_eq_countP (c : Consts) (manager : CheManager)
    (items : List ConfigMap) :
    countWorkspaces c manager items = items.countP (belongsTo c manager) := by
  unfold countWorkspaces
  rw [countWorkspaces_foldl]
  simp

theorem countWorkspaces_pos_iff (c : Consts) (manager : CheManager) (items : List ConfigMap) :
    0 < countWorkspaces c manager items
      ↔ ∃ cm ∈ items,
          cm.ObjectMeta.Annotations.index c.ConfigAnnotationCheManagerName = manager.Name
            ∧ cm.ObjectMeta.Annotations.index c.ConfigAnnotationCheManagerNamespace
              = manager.Namespace := by
  rw [countWorkspaces_eq_countP, List.countP_pos_iff]
  constructor
  · rintro ⟨cm, hmem, hb⟩
    exact ⟨cm, hmem, (belongsTo_iff c manager cm).mp hb⟩
  · rintro ⟨cm, hmem, hb⟩
    exact ⟨cm, hmem, (belongsTo_iff c manager cm).mpr hb⟩

/-- C7: when the listing of the config maps succeeds with `items`, `singlehostFinalize`
returns an error exactly when some listed config map has the manager-name annotation equal
to the name of the manager and the manager-namespace annotation equal to its namespace; when
no listed config map is such, it returns `nil`. -/
theorem singlehostFinalize_error_iff (c : Consts)
    (GetLabelsForComponent : CheManager → String → StringMap)
    (clientList : ListOptions → Except GoError (List ConfigMap))
    (mgr : CheManager) (items : List ConfigMap)
    (hlist : clientList
        (ListOptions.mk mgr.Namespace (GetLabelsForComponent mgr "gateway-config"))
      = Except.ok items) :
    (singlehostFinalize c GetLabelsForComponent clientList mgr ≠ none
        ↔ ∃ cm ∈ items,
            cm.ObjectMeta.Annotations.index c.ConfigAnnotationCheManagerName = mgr.Name
              ∧ cm.ObjectMeta.Annotations.index c.ConfigAnnotationCheManagerNamespace
                = mgr.Namespace)
      ∧ ((∀ cm ∈ items,
            ¬ (cm.ObjectMeta.Annotations.index c.ConfigAnnotationCheManagerName = mgr.Name
              ∧ cm.ObjectMeta.Annotations.index c.ConfigAnnotationCheManagerNamespace
                = mgr.Namespace))
          → singlehostFinalize c GetLabelsForComponent clientList mgr = none) := by
  have hiff : singlehostFinalize c GetLabelsForComponent clientList mgr ≠ none
      ↔ 0 < countWorkspaces c mgr items := by
    unfold singlehostFinalize
    rw [hlist]
    by_cases hpos : countWorkspaces c mgr items > 0
    · simp [hpos]
    · simp [hpos]
  have hmain := hiff.trans (countWorkspaces_pos_iff c mgr items)
  refine ⟨hmain, ?_⟩
  intro hall
  by_contra hne
  obtain ⟨cm, hmem, hb⟩ := hmain.mp hne
  exact hall cm hmem hb

/-- Witness of C7: one config map of the workspace `wsid` is left for the manager
`(ns, che)`, next to a config map of another manager. -/
theorem singlehostFinalize_error_iff_witness :
    singlehostFinalize
        (Consts.mk "che-name" "che-namespace" "routing-name" "routing-namespace"
          "workspace-id" "singlehost" "multihost")
        (fun _ _ => [])
        (fun _ => Except.ok
          [ConfigMap.mk
              (ObjectMeta.mk "wsid" "ns" [] [("che-name", "che"), ("che-namespace", "ns")] [])
              [],
            ConfigMap.mk
              (ObjectMeta.mk "other" "ns" [] [("che-name", "che"), ("che-namespace", "ns2")] [])
              []])
        (CheManager.mk (ObjectMeta.mk "che" "ns" [] [] []) (CheManagerSpec.mk "h" ""))
      ≠ none :=
  (singlehostFinalize_error_iff
    (Consts.mk "che-name" "che-namespace" "routing-name" "routing-namespace"
      "workspace-id" "singlehost" "multihost")
    (fun _ _ => [])
    (fun _ => Except.ok
      [ConfigMap.mk
          (ObjectMeta.mk "wsid" "ns" [] [("che-name", "che"), ("che-namespace", "ns")] [])
          [],
        ConfigMap.mk
          (ObjectMeta.mk "other" "ns" [] [("che-name", "che"), ("che-namespace", "ns2")] [])
          []])
    (CheManager.mk (ObjectMeta.mk "che" "ns" [] [] []) (CheManagerSpec.mk "h" ""))
    _ rfl).1.mpr
    ⟨ConfigMap.mk
        (ObjectMeta.mk "wsid" "ns" [] [("che-name", "che"), ("che-namespace", "ns")] []) [],
      by simp, by decide⟩

/-- C8: `multihostFinalize` returns an error for every manager and every state of the
cluster. -/
theorem multihostFinalize_fails {σ : Type} (cluster : σ) (mgr : CheManager) :
    multihostFinalize cluster mgr
        = some (GoError.Errorf "Multihost mode not supported at the moment.")
      ∧ multihostFinalize cluster mgr ≠ none := by
  simp [multihostFinalize]

end manager

namespace solver

/-! ## Exposed endpoints and the owning manager -/

/-- C11, as stated, fails: the first service has no manager annotations, the registry holds
two managers and none under the key of the service, and `GetExposedEndpoints` answers
`RoutingInvalid`, which is not a `RoutingNotReady` of any delay. -/
theorem GetExposedEndpoints_unnamed_ambiguous :
    List.lookup (ObjectKey.mk "" "")
        ([(ObjectKey.mk "ns" "che", CheManager.zero),
          (ObjectKey.mk "ns" "che2", CheManager.zero)] : Registry) = none
      ∧ GetExposedEndpoints
          (Consts.mk "che-name" "che-namespace" "routing-name" "routing-namespace"
            "workspace-id" "singlehost" "multihost")
          (fun _ _ _ _ (s : Unit) => ((some [], true, none), s))
          (fun _ _ _ _ (s : Unit) => ((some [], true, none), s))
          [(ObjectKey.mk "ns" "che", CheManager.zero),
            (ObjectKey.mk "ns" "che2", CheManager.zero)]
          []
          (RoutingObjects.mk [Service.mk (ObjectMeta.mk "svc" "ws" [] [] [])] [] [] none)
          ()
        = ((none, false, some (GoError.RoutingInvalid (noManagerNamedReason 2))), ())
      ∧ ∀ d : Nat, GoError.RoutingInvalid (noManagerNamedReason 2)
          ≠ GoError.RoutingNotReady d := by
  refine ⟨by decide, by decide, ?_⟩
  intro d h
  cases h

/-- C11, amended: when the list of services is `svc :: rest`, `GetExposedEndpoints` looks the
manager up under the key made of the two manager annotations of `svc`, whatever `rest` is.
Whenever that look-up fails it returns the `nil` map, `ready = false` and the error of the
look-up; the error is `RoutingNotReady` when the annotations name a manager that the registry
does not hold. -/
theorem GetExposedEndpoints_first_service {σ : Type} (c : Consts)
    (singlehostExposedEndpoints multihostExposedEndpoints :
      CheManager → String → EndpointMap → RoutingObjects → σ →
        (Option ExposedEndpointMap × Bool × Option GoError) × σ)
    (managers : Registry) (endpoints : EndpointMap) (routingObj : RoutingObjects)
    (cluster : σ) (svc : Service) (rest : List Service) (err : GoError)
    (hsvc : routingObj.Services = svc :: rest)
    (hfail : (findCheManager managers
        (ObjectKey.mk (svc.ObjectMeta.Annotations.index c.ConfigAnnotationCheManagerNamespace)
          (svc.ObjectMeta.Annotations.index c.ConfigAnnotationCheManagerName))).2 = some err) :
    GetExposedEndpoints c singlehostExposedEndpoints multihostExposedEndpoints managers
          endpoints routingObj cluster
        = ((none, false, some err), cluster)
      ∧ (svc.ObjectMeta.Annotations.index c.ConfigAnnotationCheManagerName ≠ "" →
          err = GoError.RoutingNotReady (1 * Second)
            ∨ err = GoError.RoutingNotReady (10 * Second)) := by
  constructor
  · unfold GetExposedEndpoints
    rw [hsvc]
    simp only
    rcases hres : findCheManager managers
        (ObjectKey.mk (svc.ObjectMeta.Annotations.index c.ConfigAnnotationCheManagerNamespace)
          (svc.ObjectMeta.Annotations.index c.ConfigAnnotationCheManagerName)) with ⟨m, e⟩
    rw [hres] at hfail
    simp only at hfail
    subst hfail
    rfl
  · intro hname
    by_cases hne : managers = []
    · subst hne
      rw [findCheManager_empty] at hfail
      left
      exact (Option.some.inj hfail).symm
    · rw [findCheManager_named managers _ hne hname] at hfail
      right
      cases hl : managers.lookup
          (ObjectKey.mk
            (svc.ObjectMeta.Annotations.index c.ConfigAnnotationCheManagerNamespace)
            (svc.ObjectMeta.Annotations.index c.ConfigAnnotationCheManagerName)) with
      | none =>
        rw [hl] at hfail
        exact (Option.some.inj hfail).symm
      | some m =>
        rw [hl] at hfail
        cases hfail

/-- Witness of C11, amended: the first service names the manager `(ns, gone)`, which the
registry does not hold; a second service names a manager that it holds. -/
theorem GetExposedEndpoints_first_service_witness :
    GetExposedEndpoints
        (Consts.mk "che-name" "che-namespace" "routing-name" "routing-namespace"
          "workspace-id" "singlehost" "multihost")
        (fun _ _ _ _ (s : Unit) => ((some [], true, none), s))
        (fun _ _ _ _ (s : Unit) => ((some [], true, none), s))
        [(ObjectKey.mk "ns" "che", CheManager.zero)]
        []
        (RoutingObjects.mk
          [Service.mk
              (ObjectMeta.mk "s1" "ws" [] [("che-name", "gone"), ("che-namespace", "ns")] []),
            Service.mk
              (ObjectMeta.mk "s2" "ws" [] [("che-name", "che"), ("che-namespace", "ns")] [])]
          [] [] none)
        ()
      = ((none, false, some (GoError.RoutingNotReady (10 * Second))), ()) :=
  (GetExposedEndpoints_first_service
    (Consts.mk "che-name" "che-namespace" "routing-name" "routing-namespace"
      "workspace-id" "singlehost" "multihost")
    (fun _ _ _ _ (s : Unit) => ((some [], true, none), s))
    (fun _ _ _ _ (s : Unit) => ((some [], true, none), s))
    [(ObjectKey.mk "ns" "che", CheManager.zero)]
    []
    (RoutingObjects.mk
      [Service.mk
          (ObjectMeta.mk "s1" "ws" [] [("che-name", "gone"), ("che-namespace", "ns")] []),
        Service.mk
          (ObjectMeta.mk "s2" "ws" [] [("che-name", "che"), ("che-namespace", "ns")] [])]
      [] [] none)
    ()
    (Service.mk
      (ObjectMeta.mk "s1" "ws" [] [("che-name", "gone"), ("che-namespace", "ns")] []))
    [Service.mk
      (ObjectMeta.mk "s2" "ws" [] [("che-name", "che"), ("che-namespace", "ns")] [])]
    (GoError.RoutingNotReady (10 * Second)) rfl (by decide)).1

/-! ## Negotiation of the solver -/

/-- C12: `HasSolver` is true exactly for the routing class `che`; `GetSolver` returns a solver
and no error exactly when `HasSolver` is true, and otherwise no solver and the error
`RoutingNotSupported`. -/
theorem GetSolver_iff_HasSolver {κ ς : Type} (g : CheRouterGetter ς) (client : κ)
    (routingClass : String) :
    (g.HasSolver routingClass = true ↔ routingClass = "che")
      ∧ g.GetSolver client routingClass
          = (if g.HasSolver routingClass = true then
              (some (CheRoutingSolver.mk client g.scheme), none)
            else
              (none, some GoError.RoutingNotSupported))
      ∧ (((g.GetSolver client routingClass).1 ≠ none
            ∧ (g.GetSolver client routingClass).2 = none)
          ↔ g.HasSolver routingClass = true) := by
  have hiff : g.HasSolver routingClass = true ↔ routingClass = "che" := by
    simp [CheRouterGetter.HasSolver, isSupported]
  refine ⟨hiff, ?_, ?_⟩
  · by_cases h : routingClass = "che"
    · simp [CheRouterGetter.GetSolver, CheRouterGetter.HasSolver, isSupported, h]
    · simp [CheRouterGetter.GetSolver, CheRouterGetter.HasSolver, isSupported, h]
  · by_cases h : routingClass = "che"
    · simp [CheRouterGetter.GetSolver, CheRouterGetter.HasSolver, isSupported, h]
    · simp [CheRouterGetter.GetSolver, CheRouterGetter.HasSolver, isSupported, h]


/-! ## The watch of the config maps -/

/-- C17: the map function of the watch returns exactly one request, keyed by the
workspace-routing name and namespace annotations of the config map, when the name of the
config map is the gateway config name of its workspace-id label and its workspace-routing-name
annotation is not empty; otherwise it returns no request, and `isGatewayWorkspaceConfig`
returns `false` with the empty key. -/
theorem ToRequestsFunc_iff (c : Consts) (GetGatewayWorkpaceConfigMapName : String → String)
    (mo : ObjectMeta) :
    ToRequestsFunc c GetGatewayWorkpaceConfigMapName mo
        = (if mo.Name = GetGatewayWorkpaceConfigMapName (mo.Labels.index c.WorkspaceIDLabel)
              ∧ mo.Annotations.index c.ConfigAnnotationWorkspaceRoutingName ≠ "" then
            [Request.mk
              (ObjectKey.mk
                (mo.Annotations.index c.ConfigAnnotationWorkspaceRoutingNamespace)
                (mo.Annotations.index c.ConfigAnnotationWorkspaceRoutingName))]
          else
            [])
      ∧ isGatewayWorkspaceConfig c GetGatewayWorkpaceConfigMapName mo
        = (if mo.Name = GetGatewayWorkpaceConfigMapName (mo.Labels.index c.WorkspaceIDLabel)
              ∧ mo.Annotations.index c.ConfigAnnotationWorkspaceRoutingName ≠ "" then
            (true,
              ObjectKey.mk
                (mo.Annotations.index c.ConfigAnnotationWorkspaceRoutingNamespace)
                (mo.Annotations.index c.ConfigAnnotationWorkspaceRoutingName))
          else
            (false, ObjectKey.mk "" ""))
      ∧ ((ToRequestsFunc c GetGatewayWorkpaceConfigMapName mo).length = 1
          ↔ (mo.Name = GetGatewayWorkpaceConfigMapName (mo.Labels.index c.WorkspaceIDLabel)
              ∧ mo.Annotations.index c.ConfigAnnotationWorkspaceRoutingName ≠ "")) := by
  by_cases hname : mo.Name = GetGatewayWorkpaceConfigMapName (mo.Labels.index c.WorkspaceIDLabel)
  · by_cases hrouting : mo.Annotations.index c.ConfigAnnotationWorkspaceRoutingName = ""
    · simp [ToRequestsFunc, isGatewayWorkspaceConfig, ObjectKey.zero, hname, hrouting]
    · simp [ToRequestsFunc, isGatewayWorkspaceConfig, ObjectKey.zero, hname, hrouting]
  · simp [ToRequestsFunc, isGatewayWorkspaceConfig, ObjectKey.zero, hname]

/-! ## Shape of the results of `findCheManager` -/

/-- C18: for keys with an empty name the result of `findCheManager` does not depend on
the namespace of the key; the only record of a registry is returned even when it is stored
under another namespace; and the result is never `RoutingNotReady` with a delay of ten
seconds. -/
theorem findCheManager_unnamed_ignores_namespace (managers : Registry) (ns₁ ns₂ : String)
    (k : ObjectKey) (m : CheManager) :
    findCheManager managers (ObjectKey.mk ns₁ "") = findCheManager managers (ObjectKey.mk ns₂ "")
      ∧ findCheManager [(k, m)] (ObjectKey.mk ns₁ "") = (m, none)
      ∧ (findCheManager managers (ObjectKey.mk ns₁ "")).2
          ≠ some (GoError.RoutingNotReady (10 * Second)) := by
  have hshape : ∀ ns : String,
      findCheManager managers (ObjectKey.mk ns "")
        = match managers with
          | [] => (CheManager.zero, some (GoError.RoutingNotReady (1 * Second)))
          | [(_, m)] => (m, none)
          | _ :: _ :: _ =>
            (CheManager.zero,
              some (GoError.RoutingInvalid (noManagerNamedReason managers.length))) := by
    intro ns
    match managers with
    | [] => exact findCheManager_empty _
    | [(k, m)] => exact findCheManager_unnamed_single k _ m rfl
    | e₁ :: e₂ :: rest =>
      exact findCheManager_unnamed_many (e₁ :: e₂ :: rest) _ (by simp) rfl
  refine ⟨by rw [hshape ns₁, hshape ns₂], findCheManager_unnamed_single k _ m rfl, ?_⟩
  rw [hshape ns₁]
  match managers with
  | [] => simp [Second]
  | [(k, m)] => simp
  | e₁ :: e₂ :: rest => simp

/-- C19: `findCheManager` always returns a record (the pointer is never `nil`, every `return`
takes the address of a value). When it returns an error the record is the zero value and the
error is `RoutingNotReady` of one second, `RoutingNotReady` of ten seconds or
`RoutingInvalid`; when it returns no error the record is one of the entries of the
registry. -/
theorem findCheManager_result_shape (managers : Registry) (key : ObjectKey) :
    match findCheManager managers key with
    | (record, some err) =>
      record = CheManager.zero
        ∧ (err = GoError.RoutingNotReady (1 * Second)
          ∨ err = GoError.RoutingNotReady (10 * Second)
          ∨ ∃ reason : String, err = GoError.RoutingInvalid reason)
    | (record, none) => ∃ k : ObjectKey, (k, record) ∈ managers := by
  by_cases hne : managers = []
  · subst hne
    rw [findCheManager_empty]
    simp
  · by_cases hname : key.Name = ""
    · match managers with
      | [] => exact absurd rfl hne
      | [(k, m)] =>
        rw [findCheManager_unnamed_single k key m hname]
        exact ⟨k, by simp⟩
      | e₁ :: e₂ :: rest =>
        rw [findCheManager_unnamed_many (e₁ :: e₂ :: rest) key (by simp) hname]
        simp
    · rw [findCheManager_named managers key hne hname]
      cases hl : managers.lookup key with
      | none => simp
      | some m =>
        simp only
        refine ⟨key, ?_⟩
        clear hne
        induction managers with
        | nil => simp at hl
        | cons e rest ih =>
          rcases e with ⟨k, v⟩
          rw [List.lookup_cons] at hl
          by_cases hk : key == k
          · simp only [hk] at hl
            have hkeq : key = k := by simpa using hk
            have hv : v = m := by simpa using hl
            subst hkeq
            subst hv
            simp
          · simp only [hk] at hl
            exact List.mem_cons_of_mem _ (ih hl)

end solver

namespace manager

/-! ## The count of the workspaces of a manager -/

/-- C20: when the listing succeeds with `items`, the error of `singlehostFinalize` carries
the number of the listed config maps whose manager-name and manager-namespace annotations
both name the manager, and there is no error when that number is zero; a config map that does
not match both annotations adds nothing to the count; and a listing of the same items in
another order gives the same result. -/
theorem singlehostFinalize_count (c : Consts)
    (GetLabelsForComponent : CheManager → String → StringMap)
    (clientList clientList₂ : ListOptions → Except GoError (List ConfigMap))
    (mgr : CheManager) (items items₂ : List ConfigMap)
    (hlist : clientList
        (ListOptions.mk mgr.Namespace (GetLabelsForComponent mgr "gateway-config"))
      = Except.ok items)
    (hlist₂ : clientList₂
        (ListOptions.mk mgr.Namespace (GetLabelsForComponent mgr "gateway-config"))
      = Except.ok items₂)
    (hperm : items.Perm items₂) :
    singlehostFinalize c GetLabelsForComponent clientList mgr
        = (if 0 < (items.filter (fun cm =>
              decide (cm.ObjectMeta.Annotations.index c.ConfigAnnotationCheManagerName
                  = mgr.Name
                ∧ cm.ObjectMeta.Annotations.index c.ConfigAnnotationCheManagerNamespace
                  = mgr.Namespace))).length then
            some (GoError.Errorf
              ("there are "
                ++ toString (items.filter (fun cm =>
                    decide (cm.ObjectMeta.Annotations.index c.ConfigAnnotationCheManagerName
                        = mgr.Name
                      ∧ cm.ObjectMeta.Annotations.index c.ConfigAnnotationCheManagerNamespace
                        = mgr.Namespace))).length
                ++ " workspaces associated with this Che manager"))
          else
            none)
      ∧ (∀ cm : ConfigMap,
          ¬ (cm.ObjectMeta.Annotations.index c.ConfigAnnotationCheManagerName = mgr.Name
            ∧ cm.ObjectMeta.Annotations.index c.ConfigAnnotationCheManagerNamespace
              = mgr.Namespace) →
          countWorkspaces c mgr (cm :: items) = countWorkspaces c mgr items)
      ∧ singlehostFinalize c GetLabelsForComponent clientList₂ mgr
        = singlehostFinalize c GetLabelsForComponent clientList mgr := by
  have hpred : (fun cm : ConfigMap =>
      decide (cm.ObjectMeta.Annotations.index c.ConfigAnnotationCheManagerName = mgr.Name
        ∧ cm.ObjectMeta.Annotations.index c.ConfigAnnotationCheManagerNamespace
          = mgr.Namespace)) = belongsTo c mgr := by
    funext cm
    rw [Bool.eq_iff_iff, decide_eq_true_iff, belongsTo_iff]
  have hcount : ∀ l : List ConfigMap,
      countWorkspaces c mgr l = (l.filter (belongsTo c mgr)).length := by
    intro l
    rw [countWorkspaces_eq_countP, List.countP_eq_length_filter]
  refine ⟨?_, ?_, ?_⟩
  · rw [hpred, ← hcount]
    unfold singlehostFinalize
    rw [hlist]
    rfl
  · intro cm hcm
    have hb : belongsTo c mgr cm = false := by
      cases hbt : belongsTo c mgr cm with
      | false => rfl
      | true => exact absurd ((belongsTo_iff c mgr cm).mp hbt) hcm
    rw [countWorkspaces_eq_countP, countWorkspaces_eq_countP, List.countP_cons, hb]
    simp
  · have hsame : countWorkspaces c mgr items₂ = countWorkspaces c mgr items := by
      rw [countWorkspaces_eq_countP, countWorkspaces_eq_countP]
      exact (hperm.countP_eq _).symm
    unfold singlehostFinalize
    rw [hlist, hlist₂]
    simp only [hsame]

/-- Witness of C20: of three listed config maps two name the manager `(ns, che)` and one
matches the name only; the listing is taken in two orders. -/
theorem singlehostFinalize_count_witness :
    singlehostFinalize
        (Consts.mk "che-name" "che-namespace" "routing-name" "routing-namespace"
          "workspace-id" "singlehost" "multihost")
        (fun _ _ => [])
        (fun _ => Except.ok
          [ConfigMap.mk
              (ObjectMeta.mk "w1" "ns" [] [("che-name", "che"), ("che-namespace", "ns")] []) [],
            ConfigMap.mk
              (ObjectMeta.mk "w2" "ns" [] [("che-name", "che"), ("che-namespace", "ns2")] []) [],
            ConfigMap.mk
              (ObjectMeta.mk "w3" "ns" [] [("che-name", "che"), ("che-namespace", "ns")] []) []])
        (CheManager.mk (ObjectMeta.mk "che" "ns" [] [] []) (CheManagerSpec.mk "h" ""))
      = some (GoError.Errorf "there are 2 workspaces associated with this Che manager") :=
  ((singlehostFinalize_count
    (Consts.mk "che-name" "che-namespace" "routing-name" "routing-namespace"
      "workspace-id" "singlehost" "multihost")
    (fun _ _ => [])
    (fun _ => Except.ok
      [ConfigMap.mk
          (ObjectMeta.mk "w1" "ns" [] [("che-name", "che"), ("che-namespace", "ns")] []) [],
        ConfigMap.mk
          (ObjectMeta.mk "w2" "ns" [] [("che-name", "che"), ("che-namespace", "ns2")] []) [],
        ConfigMap.mk
          (ObjectMeta.mk "w3" "ns" [] [("che-name", "che"), ("che-namespace", "ns")] []) []])
    (fun _ => Except.ok
      [ConfigMap.mk
          (ObjectMeta.mk "w3" "ns" [] [("che-name", "che"), ("che-namespace", "ns")] []) [],
        ConfigMap.mk
          (ObjectMeta.mk "w1" "ns" [] [("che-name", "che"), ("che-namespace", "ns")] []) [],
        ConfigMap.mk
          (ObjectMeta.mk "w2" "ns" [] [("che-name", "che"), ("che-namespace", "ns2")] []) []])
    (CheManager.mk (ObjectMeta.mk "che" "ns" [] [] []) (CheManagerSpec.mk "h" ""))
    _ _ rfl rfl (by decide)).1).trans (by decide)

end manager

/-! ## The registry after a reconcile -/

theorem Registry.lookup_Delete_self (key : ObjectKey) (registry : Registry) :
    List.lookup key (Registry.Delete key registry) = none := by
  induction registry with
  | nil => rfl
  | cons entry rest ih =>
    rcases entry with ⟨k, v⟩
    by_cases hk : k = key
    · subst hk
      simpa [Registry.Delete] using ih
    · have hk2 : ¬ key = k := fun h => hk h.symm
      have hstep : Registry.Delete key ((k, v) :: rest) = (k, v) :: Registry.Delete key rest := by
        simp [Registry.Delete, hk]
      have hb : (key == k) = false := by simpa using hk2
      rw [hstep, List.lookup_cons, hb]
      exact ih

theorem Registry.lookup_Delete_other (key other : ObjectKey) (registry : Registry)
    (hne : other ≠ key) :
    List.lookup other (Registry.Delete key registry) = List.lookup other registry := by
  induction registry with
  | nil => rfl
  | cons entry rest ih =>
    rcases entry with ⟨k, v⟩
    by_cases hk : k = key
    · subst hk
      have hstep : Registry.Delete k ((k, v) :: rest) = Registry.Delete k rest := by
        simp [Registry.Delete]
      have hb : (other == k) = false := by simpa using hne
      rw [hstep, ih, List.lookup_cons, hb]
    · have hstep : Registry.Delete key ((k, v) :: rest) = (k, v) :: Registry.Delete key rest := by
        simp [Registry.Delete, hk]
      rw [hstep, List.lookup_cons, List.lookup_cons, ih]

theorem Registry.count_Delete_self (key : ObjectKey) (registry : Registry) :
    ((Registry.Delete key registry).map Prod.fst).count key = 0 := by
  rw [List.count_eq_zero]
  intro hmem
  rcases List.mem_map.mp hmem with ⟨entry, hentry, hfst⟩
  have hkeep := (List.mem_filter.mp hentry).2
  rw [hfst] at hkeep
  simp at hkeep

namespace manager

/-- C14: when the read of the manager object under `key` gives `object` (`none` when the
object does not exist) and `Reconcile` succeeds, the registry afterwards holds under `key`
exactly `object`, once when the object exists and not at all when it does not, whatever it held
before, and the records under the other keys are as they were; and when the object does not
exist `Reconcile` succeeds. -/
theorem Reconcile_registry_mirror {σ : Type}
    (getManager : σ → ObjectKey → Except GoError (Option CheManager))
    (syncGateway : CheManager → σ → Option GoError × σ)
    (key : ObjectKey) (cluster : σ) (registry : Registry) (object : Option CheManager)
    (hread : getManager cluster key = Except.ok object) :
    ((Reconcile getManager syncGateway key cluster registry).1 = none →
        Registry.Get key (Reconcile getManager syncGateway key cluster registry).2.2 = object
          ∧ (((Reconcile getManager syncGateway key cluster registry).2.2.map Prod.fst).count
              key = if object.isSome then 1 else 0)
          ∧ ∀ other : ObjectKey, other ≠ key →
              Registry.Get other (Reconcile getManager syncGateway key cluster registry).2.2
                = Registry.Get other registry)
      ∧ (object = none → (Reconcile getManager syncGateway key cluster registry).1 = none) := by
  cases object with
  | none =>
    have hrun : Reconcile getManager syncGateway key cluster registry
        = (none, cluster, Registry.Delete key registry) := by
      simp [Reconcile, hread]
    rw [hrun]
    refine ⟨fun _ => ⟨Registry.lookup_Delete_self key registry, ?_, ?_⟩, fun _ => rfl⟩
    · simpa using Registry.count_Delete_self key registry
    · intro other hne
      exact Registry.lookup_Delete_other key other registry hne
  | some current =>
    refine ⟨?_, fun h => by cases h⟩
    rcases hsync : syncGateway current cluster with ⟨e, cluster₂⟩
    cases e with
    | some err =>
      have hrun : Reconcile getManager syncGateway key cluster registry
          = (some err, cluster₂, registry) := by
        simp [Reconcile, hread, hsync]
      rw [hrun]
      intro h
      cases h
    | none =>
      have hrun : Reconcile getManager syncGateway key cluster registry
          = (none, cluster₂, Registry.Put key current registry) := by
        simp [Reconcile, hread, hsync]
      rw [hrun]
      intro _
      refine ⟨?_, ?_, ?_⟩
      · simp [Registry.Get, Registry.Put, List.lookup_cons]
      · have h0 := Registry.count_Delete_self key registry
        simp [Registry.Put, List.count_cons, h0]
      · intro other hne
        simp only [Registry.Get, Registry.Put, List.lookup_cons]
        have hb : (other == key) = false := by simpa using hne
        rw [hb]
        exact Registry.lookup_Delete_other key other registry hne

/-- Witness of C14: the registry holds the manager `(default, che)` with the host
`over.the.rainbow`, the object was updated to the host `over.the.shoulder`, and the
reconcile puts the updated record in the registry. -/
theorem Reconcile_registry_mirror_witness :
    Registry.Get (ObjectKey.mk "default" "che")
        (Reconcile
          (fun (objects : List (ObjectKey × CheManager)) k => Except.ok (objects.lookup k))
          (fun _ objects => (none, objects))
          (ObjectKey.mk "default" "che")
          [(ObjectKey.mk "default" "che",
            CheManager.mk (ObjectMeta.mk "che" "default" [] [] [])
              (CheManagerSpec.mk "over.the.shoulder" "multihost"))]
          [(ObjectKey.mk "default" "che",
            CheManager.mk (ObjectMeta.mk "che" "default" [] [] [])
              (CheManagerSpec.mk "over.the.rainbow" "multihost"))]).2.2
      = some (CheManager.mk (ObjectMeta.mk "che" "default" [] [] [])
          (CheManagerSpec.mk "over.the.shoulder" "multihost")) :=
  ((Reconcile_registry_mirror
    (fun (objects : List (ObjectKey × CheManager)) k => Except.ok (objects.lookup k))
    (fun _ objects => (none, objects))
    (ObjectKey.mk "default" "che")
    [(ObjectKey.mk "default" "che",
      CheManager.mk (ObjectMeta.mk "che" "default" [] [] [])
        (CheManagerSpec.mk "over.the.shoulder" "multihost"))]
    [(ObjectKey.mk "default" "che",
      CheManager.mk (ObjectMeta.mk "che" "default" [] [] [])
        (CheManagerSpec.mk "over.the.rainbow" "multihost"))]
    (some (CheManager.mk (ObjectMeta.mk "che" "default" [] [] [])
      (CheManagerSpec.mk "over.the.shoulder" "multihost")))
    rfl).1 (by decide)).1

end manager

namespace solver

/-! ## URLs of the exposed endpoints -/

theorem endpointScheme_secure (e : Endpoint) (h : e.Secure = true ∨ e.Protocol = "https") :
    endpointScheme e = "https" := by
  rcases h with h | h
  · simp [endpointScheme, h]
  · simp [endpointScheme, h]

theorem endpointPath_unset (e : Endpoint) (h : e.Path = "") : endpointPath e = "/" := by
  simp [endpointPath, h]

theorem endpointPath_absolute (e : Endpoint) (rest : List Char)
    (h : e.Path = String.mk ('/' :: rest)) : endpointPath e = e.Path := by
  simp [endpointPath, h]

/-- C13: for a single host manager `m` whose gateway is established, `GetExposedEndpoints`
reports for every declared endpoint of a component the URL made of the scheme, `://`, the
host of `m`, the workspace id of the first service, the component, the target port and the
path. The scheme is `https` when the endpoint is secure or its protocol is `https`; an unset
path is `/` and a path that starts with a slash is taken as it is. So protocol `https` with
path `/1/` gives `https://H/W/M/P/1/`, protocol `http` with path `/2.js` and the secure flag
gives `https://H/W/M/P/2.js`, and no protocol and no path give `http://H/W/M/P/`. -/
theorem GetExposedEndpoints_singlehost_urls {σ : Type} (c : Consts)
    (established : CheManager → Bool)
    (multihostExposedEndpoints :
      CheManager → String → EndpointMap → RoutingObjects → σ →
        (Option ExposedEndpointMap × Bool × Option GoError) × σ)
    (managers : Registry) (endpoints : EndpointMap) (routingObj : RoutingObjects)
    (cluster : σ) (svc : Service) (rest : List Service) (m : CheManager)
    (hsvc : routingObj.Services = svc :: rest)
    (hfound : findCheManager managers
        (ObjectKey.mk (svc.ObjectMeta.Annotations.index c.ConfigAnnotationCheManagerNamespace)
          (svc.ObjectMeta.Annotations.index c.ConfigAnnotationCheManagerName)) = (m, none))
    (hsingle : util.IsSingleHost c m = true) (hest : established m = true) :
    GetExposedEndpoints c (singlehostExposedEndpoints established) multihostExposedEndpoints
          managers endpoints routingObj cluster
        = ((some (endpoints.map (fun entry =>
              (entry.1, entry.2.map (fun e =>
                ExposedEndpoint.mk e.Name
                  (endpointScheme e ++ "://" ++ m.Spec.Host ++ "/"
                    ++ svc.ObjectMeta.Labels.index c.WorkspaceIDLabel ++ "/" ++ entry.1 ++ "/"
                    ++ toString e.TargetPort ++ endpointPath e)
                  e.Attributes)))),
            true, none), cluster)
      ∧ (∀ e : Endpoint, e.Secure = true ∨ e.Protocol = "https" → endpointScheme e = "https")
      ∧ (∀ e : Endpoint, e.Path = "" → endpointPath e = "/")
      ∧ (∀ (e : Endpoint) (tail : List Char),
          e.Path = String.mk ('/' :: tail) → endpointPath e = e.Path)
      ∧ (∀ (H W M name exposure : String) (P : Nat) (attributes : StringMap),
          endpointUrl H W M (Endpoint.mk name P exposure "https" "/1/" false attributes)
              = "https://" ++ H ++ "/" ++ W ++ "/" ++ M ++ "/" ++ toString P ++ "/1/"
            ∧ endpointUrl H W M (Endpoint.mk name P exposure "http" "/2.js" true attributes)
              = "https://" ++ H ++ "/" ++ W ++ "/" ++ M ++ "/" ++ toString P ++ "/2.js"
            ∧ endpointUrl H W M (Endpoint.mk name P exposure "" "" false attributes)
              = "http://" ++ H ++ "/" ++ W ++ "/" ++ M ++ "/" ++ toString P ++ "/") := by
  refine ⟨?_, endpointScheme_secure, endpointPath_unset, endpointPath_absolute, ?_⟩
  · unfold GetExposedEndpoints
    rw [hsvc]
    simp only [hfound, hsingle, if_true]
    simp only [singlehostExposedEndpoints, hest, if_true, endpointUrl]
  · intro H W M name exposure P attributes
    have h1 : endpointScheme (Endpoint.mk name P exposure "https" "/1/" false attributes)
        = "https" := endpointScheme_secure _ (Or.inr rfl)
    have h2 : endpointScheme (Endpoint.mk name P exposure "http" "/2.js" true attributes)
        = "https" := endpointScheme_secure _ (Or.inl rfl)
    have h3 : endpointScheme (Endpoint.mk name P exposure "" "" false attributes)
        = "http" := by simp [endpointScheme]
    have p1 : endpointPath (Endpoint.mk name P exposure "https" "/1/" false attributes)
        = "/1/" := endpointPath_absolute _ ['1', '/'] rfl
    have p2 : endpointPath (Endpoint.mk name P exposure "http" "/2.js" true attributes)
        = "/2.js" := endpointPath_absolute _ ['2', '.', 'j', 's'] rfl
    have p3 : endpointPath (Endpoint.mk name P exposure "" "" false attributes)
        = "/" := endpointPath_unset _ rfl
    have a1 : ∀ s : String, "https" ++ "://" ++ s = "https://" ++ s := by
      intro s
      rw [String.append_assoc]
      rfl
    have a3 : ∀ s : String, "http" ++ "://" ++ s = "http://" ++ s := by
      intro s
      rw [String.append_assoc]
      rfl
    refine ⟨?_, ?_, ?_⟩
    · simp only [endpointUrl, h1, p1, String.append_assoc]
      rfl
    · simp only [endpointUrl, h2, p2, String.append_assoc]
      rfl
    · simp only [endpointUrl, h3, p3, String.append_assoc]
      rfl

/-- Witness of C13: the manager, the service and the three endpoints of the test of the
exposed endpoints. -/
theorem GetExposedEndpoints_singlehost_urls_witness :
    GetExposedEndpoints
        (Consts.mk "che-name" "che-namespace" "routing-name" "routing-namespace"
          "workspace-id" "singlehost" "multihost")
        (singlehostExposedEndpoints (fun _ => true))
        (fun _ _ _ _ (s : Unit) => ((none, false, some (GoError.Errorf "multihost")), s))
        [(ObjectKey.mk "ns" "che",
          CheManager.mk (ObjectMeta.mk "che" "ns" [] [] [])
            (CheManagerSpec.mk "over.the.rainbow" ""))]
        [("m1",
          [Endpoint.mk "e1" 9999 "public" "https" "/1/" false [],
            Endpoint.mk "e2" 9999 "public" "http" "/2.js" true [],
            Endpoint.mk "e3" 9999 "public" "" "" false []])]
        (RoutingObjects.mk
          [Service.mk
            (ObjectMeta.mk "svc" "ws" [("workspace-id", "wsid")]
              [("che-name", "che"), ("che-namespace", "ns")] [])]
          [] [] none)
        ()
      = ((some
          [("m1",
            [ExposedEndpoint.mk "e1" "https://over.the.rainbow/wsid/m1/9999/1/" [],
              ExposedEndpoint.mk "e2" "https://over.the.rainbow/wsid/m1/9999/2.js" [],
              ExposedEndpoint.mk "e3" "http://over.the.rainbow/wsid/m1/9999/" []])],
          true, none), ()) :=
  ((GetExposedEndpoints_singlehost_urls
    (Consts.mk "che-name" "che-namespace" "routing-name" "routing-namespace"
      "workspace-id" "singlehost" "multihost")
    (fun _ => true)
    (fun _ _ _ _ (s : Unit) => ((none, false, some (GoError.Errorf "multihost")), s))
    [(ObjectKey.mk "ns" "che",
      CheManager.mk (ObjectMeta.mk "che" "ns" [] [] [])
        (CheManagerSpec.mk "over.the.rainbow" ""))]
    [("m1",
      [Endpoint.mk "e1" 9999 "public" "https" "/1/" false [],
        Endpoint.mk "e2" 9999 "public" "http" "/2.js" true [],
        Endpoint.mk "e3" 9999 "public" "" "" false []])]
    (RoutingObjects.mk
      [Service.mk
        (ObjectMeta.mk "svc" "ws" [("workspace-id", "wsid")]
          [("che-name", "che"), ("che-namespace", "ns")] [])]
      [] [] none)
    ()
    (Service.mk
      (ObjectMeta.mk "svc" "ws" [("workspace-id", "wsid")]
        [("che-name", "che"), ("che-namespace", "ns")] []))
    []
    (CheManager.mk (ObjectMeta.mk "che" "ns" [] [] [])
      (CheManagerSpec.mk "over.the.rainbow" ""))
    rfl (by decide) (by decide) rfl).1).trans (by decide)


/-! ## Finalization of a routing in the single host mode -/

theorem singlehostFinalize_mem (manager : CheManager) (routing : WorkspaceRouting)
    (cluster : List ConfigMap) (cm : ConfigMap)
    (hmem : cm ∈ (singlehostFinalize manager routing cluster).2) :
    ∃ before ∈ cluster, before.ObjectMeta = cm.ObjectMeta
      ∧ (before.ObjectMeta.Name = routing.Spec.WorkspaceId →
          ∃ kv ∈ before.Data, kv.1 ≠ fragmentEntry routing.Spec.WorkspaceId) := by
  simp only [singlehostFinalize, List.mem_filterMap] at hmem
  obtain ⟨before, hbefore, hkeep⟩ := hmem
  refine ⟨before, hbefore, ?_⟩
  by_cases hws : before.ObjectMeta.Name = routing.Spec.WorkspaceId
  · by_cases hempty : (before.Data.filter
        (fun kv => kv.1 != fragmentEntry routing.Spec.WorkspaceId)).isEmpty = true
    · simp [hws, hempty] at hkeep
    · simp only [hws, beq_self_eq_true, if_true, hempty] at hkeep
      have hcm := Option.some.inj hkeep
      refine ⟨by rw [← hcm], fun _ => ?_⟩
      cases hfilter : before.Data.filter
          (fun kv => kv.1 != fragmentEntry routing.Spec.WorkspaceId) with
      | nil => simp [hfilter] at hempty
      | cons kv tail =>
        have hkv : kv ∈ before.Data.filter
            (fun kv => kv.1 != fragmentEntry routing.Spec.WorkspaceId) := by
          rw [hfilter]
          exact List.mem_cons_self _ _
        have hkv2 := List.mem_filter.mp hkv
        exact ⟨kv, hkv2.1, by simpa using hkv2.2⟩
  · have hb : (before.ObjectMeta.Name == routing.Spec.WorkspaceId) = false := by
      simpa using hws
    simp only [hb] at hkeep
    by_cases hm : before.ObjectMeta.Name = manager.Name
    · simp only [hm, beq_self_eq_true, if_true] at hkeep
      have hcm := Option.some.inj hkeep
      exact ⟨by rw [← hcm], fun h => absurd h hws⟩
    · have hb2 : (before.ObjectMeta.Name == manager.Name) = false := by simpa using hm
      simp only [hb2] at hkeep
      have hcm := Option.some.inj hkeep
      exact ⟨by rw [← hcm], fun h => absurd h hws⟩

theorem singlehostFinalize_keeps_manager_config (manager : CheManager)
    (routing : WorkspaceRouting) (cluster : List ConfigMap) (cm : ConfigMap)
    (hmem : cm ∈ cluster) (hname : cm.ObjectMeta.Name = manager.Name)
    (hdistinct : routing.Spec.WorkspaceId ≠ manager.Name) :
    ∃ after ∈ (singlehostFinalize manager routing cluster).2,
      after.ObjectMeta = cm.ObjectMeta := by
  refine ⟨ConfigMap.mk cm.ObjectMeta
    (cm.Data.filter (fun kv => kv.1 != fragmentEntry routing.Spec.WorkspaceId)), ?_, rfl⟩
  simp only [singlehostFinalize, List.mem_filterMap]
  refine ⟨cm, hmem, ?_⟩
  have hb : (cm.ObjectMeta.Name == routing.Spec.WorkspaceId) = false := by
    rw [hname]
    simpa using fun h : manager.Name = routing.Spec.WorkspaceId => hdistinct h.symm
  have hb2 : (cm.ObjectMeta.Name == manager.Name) = true := by simpa using hname
  simp only [hb, hb2, Bool.false_eq_true, if_false, if_true]

/-- C15: let the routing resolve to the single host manager `m`, and let the cluster hold
the config objects that `GetSpecObjects` made for it: the config object of the manager, named
by the name of `m`, and, as a distinct object, the config object of the workspace, named by
the workspace id, whose only entry is the fragment of the workspace. Then `Finalize`
succeeds, afterwards no config object is named by the workspace id, and a config object named
by the name of `m` is still there. -/
theorem Finalize_removes_workspace_config (c : Consts)
    (multihostFinalize :
      CheManager → WorkspaceRouting → List ConfigMap → Option GoError × List ConfigMap)
    (managers : Registry) (routing : WorkspaceRouting) (m : CheManager)
    (cluster : List ConfigMap)
    (hresolved : cheManagerOfRouting c managers routing = (m, none))
    (hsingle : util.IsSingleHost c m = true)
    (hdistinct : routing.Spec.WorkspaceId ≠ m.Name)
    (hworkspace : ∀ cm ∈ cluster, cm.ObjectMeta.Name = routing.Spec.WorkspaceId →
      ∀ kv ∈ cm.Data, kv.1 = fragmentEntry routing.Spec.WorkspaceId)
    (hmanager : ∃ cm ∈ cluster, cm.ObjectMeta.Name = m.Name) :
    (Finalize c singlehostFinalize multihostFinalize managers routing cluster).1 = none
      ∧ (∀ cm ∈ (Finalize c singlehostFinalize multihostFinalize managers routing cluster).2,
          cm.ObjectMeta.Name ≠ routing.Spec.WorkspaceId)
      ∧ (∃ cm ∈ (Finalize c singlehostFinalize multihostFinalize managers routing cluster).2,
          cm.ObjectMeta.Name = m.Name) := by
  have hrun : Finalize c singlehostFinalize multihostFinalize managers routing cluster
      = singlehostFinalize m routing cluster := by
    unfold Finalize
    simp only [hresolved, hsingle, if_true]
  rw [hrun]
  refine ⟨rfl, ?_, ?_⟩
  · intro cm hcm hname
    obtain ⟨before, hbefore, hmeta, hleft⟩ := singlehostFinalize_mem m routing cluster cm hcm
    have hbname : before.ObjectMeta.Name = routing.Spec.WorkspaceId := by rw [hmeta]; exact hname
    obtain ⟨kv, hkv, hne⟩ := hleft hbname
    exact hne (hworkspace before hbefore hbname kv hkv)
  · obtain ⟨cm, hcm, hname⟩ := hmanager
    obtain ⟨after, hafter, hmeta⟩ :=
      singlehostFinalize_keeps_manager_config m routing cluster cm hcm hname hdistinct
    exact ⟨after, hafter, by rw [hmeta]; exact hname⟩

/-- Witness of C15: the two config maps of the test of the finalization, `che` of the manager
and `wsid` of the workspace; after `Finalize` only `che` is left. -/
theorem Finalize_removes_workspace_config_witness :
    Finalize
        (Consts.mk "che-name" "che-namespace" "routing-name" "routing-namespace"
          "workspace-id" "singlehost" "multihost")
        singlehostFinalize
        (fun _ _ cluster => (some (GoError.Errorf "multihost"), cluster))
        [(ObjectKey.mk "ns" "che",
          CheManager.mk (ObjectMeta.mk "che" "ns" [] [] [])
            (CheManagerSpec.mk "over.the.rainbow" ""))]
        (WorkspaceRouting.mk (ObjectMeta.mk "routing" "ws" [] [] [])
          (WorkspaceRoutingSpec.mk "wsid" "che" "" [] []))
        [ConfigMap.mk (ObjectMeta.mk "che" "ns" [] [] [])
            [("che.yml", "main"), ("wsid.yml", "wsid-m1-9999")],
          ConfigMap.mk (ObjectMeta.mk "wsid" "ns" [] [] []) [("wsid.yml", "wsid-m1-9999")]]
      = (none, [ConfigMap.mk (ObjectMeta.mk "che" "ns" [] [] []) [("che.yml", "main")]]) :=
  Prod.ext
    (Finalize_removes_workspace_config
      (Consts.mk "che-name" "che-namespace" "routing-name" "routing-namespace"
        "workspace-id" "singlehost" "multihost")
      (fun _ _ cluster => (some (GoError.Errorf "multihost"), cluster))
      [(ObjectKey.mk "ns" "che",
        CheManager.mk (ObjectMeta.mk "che" "ns" [] [] [])
          (CheManagerSpec.mk "over.the.rainbow" ""))]
      (WorkspaceRouting.mk (ObjectMeta.mk "routing" "ws" [] [] [])
        (WorkspaceRoutingSpec.mk "wsid" "che" "" [] []))
      (CheManager.mk (ObjectMeta.mk "che" "ns" [] [] [])
        (CheManagerSpec.mk "over.the.rainbow" ""))
      [ConfigMap.mk (ObjectMeta.mk "che" "ns" [] [] [])
          [("che.yml", "main"), ("wsid.yml", "wsid-m1-9999")],
        ConfigMap.mk (ObjectMeta.mk "wsid" "ns" [] [] []) [("wsid.yml", "wsid-m1-9999")]]
      (by decide) (by decide) (by decide) (by decide) (by decide)).1
    (by decide)

end solver
end Che
